import Mathlib

/-!
Shallow embedding of the brototype-connect complaint tracker.

The data model and the row-level-security (RLS) predicates are translated
from `supabase/migrations/20251115110051_....sql`; the client operations are
translated from `src/pages/SubmitComplaint.tsx`, `src/pages/Index.tsx`
(the appended ComplaintDetail component), `src/pages/ManagerDashboard.tsx`
and the student dashboard component appended at the end of the migration
file.  Ids are UUID strings in the source, so they are modelled as `String`;
timestamps (`created_at`, `updated_at`, `Date.now()`) are modelled as `Nat`.
-/

namespace Connect

/-- UUIDs are strings both in the database and in the TypeScript client. -/
abbrev Uuid := String

/-- `CREATE TYPE public.user_role AS ENUM ('student', 'manager', 'admin')`. -/
inductive Role
  | student
  | manager
  | admin
  deriving DecidableEq

/-- `CREATE TYPE public.complaint_status AS ENUM (...)`. -/
inductive Status
  | new
  | acknowledged
  | in_progress
  | resolved
  | closed
  deriving DecidableEq

/-- `CREATE TYPE public.complaint_priority AS ENUM ('low', 'medium', 'high')`. -/
inductive Priority
  | low
  | medium
  | high
  deriving DecidableEq

/-- `CREATE TYPE public.complaint_category AS ENUM (...)`. -/
inductive Category
  | facilities
  | equipment
  | network
  | classroom
  | hygiene
  | safety
  | other
  deriving DecidableEq

/-- Row of `public.profiles` (the fields the claims need). -/
structure Profile where
  id : Uuid
  name : String
  role : Role
  hub : Option String
  deriving DecidableEq

/-- Row of `public.complaints`. -/
structure Complaint where
  id : Uuid
  user_id : Option Uuid
  manager_id : Option Uuid
  title : String
  description : String
  category : Category
  hub : String
  room : Option String
  priority : Priority
  status : Status
  is_anonymous : Bool
  created_at : Nat
  updated_at : Nat
  deriving DecidableEq

/-- Row of `public.messages`. -/
structure Message where
  id : Uuid
  complaint_id : Uuid
  sender_id : Option Uuid
  body : String
  is_internal : Bool
  created_at : Nat
  deriving DecidableEq

/-- Row of `public.attachments`.  The server-generated `id` column
(`gen_random_uuid()`) is irrelevant to every claim and is stored as `""`. -/
structure Attachment where
  id : Uuid
  complaint_id : Uuid
  uploader_id : Option Uuid
  file_path : String
  file_name : String
  mime_type : String
  file_size : Nat
  created_at : Nat
  deriving DecidableEq

/-- The persistent state: the four tables the claims are about. -/
structure DB where
  profiles : List Profile
  complaints : List Complaint
  messages : List Message
  attachments : List Attachment
  deriving DecidableEq

/-- SQL equality `auth.uid() = column` for a nullable uuid column: comparison
with a NULL column value is not true (three-valued logic collapses to false
in a policy context). -/
def uidEq (uid : Uuid) : Option Uuid → Bool
  | none => false
  | some v => decide (uid = v)

/-- `EXISTS (SELECT 1 FROM public.profiles WHERE id = auth.uid() AND role IN
('manager', 'admin'))` — the manager/admin clause shared by several policies. -/
def isManagerOrAdmin (db : DB) (uid : Uuid) : Bool :=
  db.profiles.any fun p =>
    decide (p.id = uid) && (decide (p.role = Role.manager) || decide (p.role = Role.admin))

/-- RLS policy "Students can view own complaints" (SELECT on complaints):
`auth.uid() = user_id OR EXISTS (... role IN ('manager','admin'))`. -/
def canSelectComplaint (db : DB) (uid : Uuid) (c : Complaint) : Bool :=
  uidEq uid c.user_id || isManagerOrAdmin db uid

/-- RLS policy "Students can create complaints" (INSERT on complaints):
`auth.uid() = user_id OR is_anonymous = true`. -/
def canInsertComplaint (uid : Uuid) (c : Complaint) : Bool :=
  uidEq uid c.user_id || c.is_anonymous

/-- RLS policy "Managers can update complaints" (UPDATE on complaints). -/
def canUpdateComplaint (db : DB) (uid : Uuid) : Bool :=
  isManagerOrAdmin db uid

/-- The complaint-visibility predicate evaluated against the parent complaint,
as used by the message/attachment SELECT policies: `EXISTS (SELECT 1 FROM
public.complaints c WHERE c.id = complaint_id AND (c.user_id = auth.uid() OR
EXISTS (... role IN ('manager','admin'))))`. -/
def canReadThread (db : DB) (uid : Uuid) (complaintId : Uuid) : Bool :=
  db.complaints.any fun c =>
    decide (c.id = complaintId) && (uidEq uid c.user_id || isManagerOrAdmin db uid)

/-- RLS policy "Users can view messages for accessible complaints". -/
def canSelectMessage (db : DB) (uid : Uuid) (m : Message) : Bool :=
  canReadThread db uid m.complaint_id

/-- RLS policy "Users can create messages" (INSERT on messages):
`auth.uid() = sender_id OR sender_id IS NULL`. -/
def canInsertMessage (uid : Uuid) (m : Message) : Bool :=
  match m.sender_id with
  | none => true
  | some s => decide (uid = s)

/-- Characters removed by JavaScript `String.prototype.trim` (the ASCII
whitespace subset; the source strings are ASCII). -/
def jsWhitespace (ch : Char) : Bool :=
  decide (ch = ' ') || decide (ch = '\t') || decide (ch = '\n') ||
    decide (ch = '\r') || decide (ch = '\x0b') || decide (ch = '\x0c')

/-- JavaScript `String.prototype.trim` / the zod `.trim()` transform: drop
whitespace from both ends. -/
def jsTrim (s : String) : String :=
  String.mk (((s.data.dropWhile jsWhitespace).reverse.dropWhile jsWhitespace).reverse)

/-- zod `z.enum([...])` check for the category field. -/
def parseCategory : String → Option Category
  | "facilities" => some Category.facilities
  | "equipment" => some Category.equipment
  | "network" => some Category.network
  | "classroom" => some Category.classroom
  | "hygiene" => some Category.hygiene
  | "safety" => some Category.safety
  | "other" => some Category.other
  | _ => none

/-- zod `z.enum(['low', 'medium', 'high'])` check for the priority field. -/
def parsePriority : String → Option Priority
  | "low" => some Priority.low
  | "medium" => some Priority.medium
  | "high" => some Priority.high
  | _ => none

/-- The `data` object assembled from the form in `handleSubmit`
(`SubmitComplaint.tsx`): `room` is `formData.get('room') as string || null`,
so a blank room arrives as `none` (null). -/
structure ComplaintForm where
  title : String
  description : String
  category : String
  hub : String
  room : Option String
  priority : String
  deriving DecidableEq

/-- `title: z.string().trim().min(5).max(200)` — the bounds apply to the
trimmed value. -/
def validTitle (s : String) : Bool :=
  decide (5 ≤ (jsTrim s).length) && decide ((jsTrim s).length ≤ 200)

/-- `description: z.string().trim().min(20).max(2000)`. -/
def validDescription (s : String) : Bool :=
  decide (20 ≤ (jsTrim s).length) && decide ((jsTrim s).length ≤ 2000)

/-- `hub: z.string().trim().min(2).max(100)`. -/
def validHub (s : String) : Bool :=
  decide (2 ≤ (jsTrim s).length) && decide ((jsTrim s).length ≤ 100)

/-- `room: z.string().trim().max(100).optional()`.  zod `.optional()` accepts
`undefined` but not `null`; `handleSubmit` passes `null` for a blank room, so
`none` fails the parse. -/
def validRoom : Option String → Bool
  | none => false
  | some s => decide ((jsTrim s).length ≤ 100)

/-- `complaintSchema.parse(data)` (zod), as a boolean: true when no field
check throws. -/
def validateForm (f : ComplaintForm) : Bool :=
  validTitle f.title && validDescription f.description &&
    (parseCategory f.category).isSome && validHub f.hub &&
    validRoom f.room && (parsePriority f.priority).isSome

/-- The `complaintData` row built in `handleSubmit`: the raw (untrimmed) form
values are inserted, `user_id` is `isAnonymous ? null : user?.id`, `status`
and `manager_id` take the schema defaults `'new'` and NULL. -/
def mkComplaint (uid : Uuid) (f : ComplaintForm) (isAnonymous : Bool)
    (freshId : Uuid) (now : Nat) (cat : Category) (pri : Priority) : Complaint :=
  { id := freshId
    user_id := if isAnonymous then none else some uid
    manager_id := none
    title := f.title
    description := f.description
    category := cat
    hub := f.hub
    room := f.room
    priority := pri
    status := Status.new
    is_anonymous := isAnonymous
    created_at := now
    updated_at := now }

inductive SubmitError
  | validation
  | authorization
  deriving DecidableEq

deriving instance DecidableEq for Except

/-- The complaint-insert portion of `handleSubmit` in `SubmitComplaint.tsx`:
zod validation first, then `supabase.from('complaints').insert(complaintData)`
subject to the INSERT policy.  `freshId` stands for the `gen_random_uuid()`
default and `now` for the insertion timestamp. -/
def submitComplaint (db : DB) (uid : Uuid) (f : ComplaintForm)
    (isAnonymous : Bool) (freshId : Uuid) (now : Nat) :
    Except SubmitError (DB × Complaint) :=
  match parseCategory f.category, parsePriority f.priority with
  | some cat, some pri =>
    if validateForm f then
      if canInsertComplaint uid (mkComplaint uid f isAnonymous freshId now cat pri) then
        Except.ok
          ({ db with
              complaints := db.complaints ++ [mkComplaint uid f isAnonymous freshId now cat pri] },
            mkComplaint uid f isAnonymous freshId now cat pri)
      else
        Except.error SubmitError.authorization
    else
      Except.error SubmitError.validation
  | _, _ => Except.error SubmitError.validation

/-- Newest-first comparison used by `.order('created_at', ascending: false)`. -/
def newerFirst (a b : Complaint) : Prop :=
  b.created_at ≤ a.created_at

instance : DecidableRel newerFirst :=
  fun a b => Nat.decLe b.created_at a.created_at

instance : IsTotal Complaint newerFirst :=
  ⟨fun a b => Nat.le_total b.created_at a.created_at⟩

instance : IsTrans Complaint newerFirst :=
  ⟨fun _ _ _ h₁ h₂ => Nat.le_trans h₂ h₁⟩

/-- `fetchComplaints` (student dashboard and `ManagerDashboard.tsx`):
`supabase.from('complaints').select('*').order('created_at', ascending:
false)` — the store applies the SELECT policy row filter, then orders. -/
def fetchComplaints (db : DB) (uid : Uuid) : List Complaint :=
  List.insertionSort newerFirst (db.complaints.filter (canSelectComplaint db uid))

/-- Result of a PostgREST UPDATE call: the new state and the number of rows
the statement touched.  Rows excluded by the UPDATE policy's USING clause are
silently skipped — the call itself succeeds. -/
structure UpdateResult where
  db : DB
  rowsAffected : Nat
  deriving DecidableEq

/-- An UPDATE on `complaints` under RLS: a row is changed iff it matches the
client filter and the USING clause of "Managers can update complaints"; the
`update_complaints_updated_at` trigger refreshes `updated_at` on each changed
row. -/
def runComplaintUpdate (db : DB) (uid : Uuid) (rowFilter : Complaint → Bool)
    (change : Complaint → Complaint) (now : Nat) : UpdateResult :=
  { db := { db with
      complaints := db.complaints.map fun c =>
        if rowFilter c && canUpdateComplaint db uid then
          { change c with updated_at := now }
        else c }
    rowsAffected :=
      (db.complaints.filter fun c => rowFilter c && canUpdateComplaint db uid).length }

/-- `updateComplaintStatus` in `ManagerDashboard.tsx`:
`supabase.from('complaints').update(status).eq('id', complaintId)`. -/
def updateComplaintStatus (db : DB) (uid : Uuid) (complaintId : Uuid)
    (newStatus : Status) (now : Nat) : UpdateResult :=
  runComplaintUpdate db uid (fun c => decide (c.id = complaintId))
    (fun c => { c with status := newStatus }) now

/-- `assignComplaint` in `ManagerDashboard.tsx`:
`supabase.from('complaints').update(manager_id).eq('id', complaintId)`. -/
def assignComplaint (db : DB) (uid : Uuid) (complaintId : Uuid)
    (managerId : Option Uuid) (now : Nat) : UpdateResult :=
  runComplaintUpdate db uid (fun c => decide (c.id = complaintId))
    (fun c => { c with manager_id := managerId }) now

/-- The message row inserted by `sendMessage` in the ComplaintDetail view:
`complaint_id`, `sender_id: user?.id`, `body: newMessage.trim()`. -/
def mkMessage (uid : Uuid) (complaintId : Uuid) (body : String)
    (freshId : Uuid) (now : Nat) : Message :=
  { id := freshId
    complaint_id := complaintId
    sender_id := some uid
    body := jsTrim body
    is_internal := false
    created_at := now }

/-- The database state after a successful `sendMessage`. -/
def dbAfterPost (db : DB) (uid : Uuid) (complaintId : Uuid) (body : String)
    (freshId : Uuid) (now : Nat) : DB :=
  { db with messages := db.messages ++ [mkMessage uid complaintId body freshId now] }

/-- `sendMessage` in the ComplaintDetail view (`Index.tsx`): bail out when
`!newMessage.trim()`, otherwise insert the trimmed body subject to the
messages INSERT policy.  `none` means nothing was inserted. -/
def sendMessage (db : DB) (uid : Uuid) (complaintId : Uuid) (body : String)
    (freshId : Uuid) (now : Nat) : Option DB :=
  if jsTrim body = "" then none
  else if canInsertMessage uid (mkMessage uid complaintId body freshId now) then
    some (dbAfterPost db uid complaintId body freshId now)
  else none

/-- Chronological-ascending comparison used by
`.order('created_at', ascending: true)`. -/
def olderFirst (a b : Message) : Prop :=
  a.created_at ≤ b.created_at

instance : DecidableRel olderFirst :=
  fun a b => Nat.decLe a.created_at b.created_at

instance : IsTotal Message olderFirst :=
  ⟨fun a b => Nat.le_total a.created_at b.created_at⟩

instance : IsTrans Message olderFirst :=
  ⟨fun _ _ _ h₁ h₂ => Nat.le_trans h₁ h₂⟩

/-- The messages query of `fetchComplaintDetails` (`Index.tsx`):
`.from('messages').select(...).eq('complaint_id', id).order('created_at',
ascending: true)` under the messages SELECT policy. -/
def listMessages (db : DB) (uid : Uuid) (complaintId : Uuid) : List Message :=
  List.insertionSort olderFirst
    (db.messages.filter fun m =>
      decide (m.complaint_id = complaintId) && canSelectMessage db uid m)

/-- A file selected in the upload input: only its name, MIME type and size
matter to the client boundary. -/
structure FileBlob where
  name : String
  mime : String
  size : Nat
  deriving DecidableEq

/-- `10 * 1024 * 1024` — the per-file ceiling in `handleFileChange`. -/
def maxFileSize : Nat := 10 * 1024 * 1024

/-- `handleFileChange` in `SubmitComplaint.tsx`: drop every selected file
with `file.size > 10 * 1024 * 1024`, append the rest, `slice(0, 5)`. -/
def handleFileChange (prev : List FileBlob) (selected : List FileBlob) : List FileBlob :=
  (prev ++ selected.filter fun fb => !decide (fb.size > maxFileSize)).take 5

/-- `const fileExt = file.name.split('.').pop()`. -/
def fileExt (name : String) : String :=
  (name.splitOn ".").getLastD ""

/-- The object key built in the upload loop:
`` `${complaint.id}/${Date.now()}.${fileExt}` ``. -/
def attachmentPath (complaintId : Uuid) (stamp : String) : String :=
  complaintId ++ "/" ++ stamp

/-- The `attachments` row inserted after a successful storage upload. -/
def mkAttachment (uid : Uuid) (c : Complaint) (isAnonymous : Bool) (now : Nat)
    (fb : FileBlob) : Attachment :=
  { id := ""
    complaint_id := c.id
    uploader_id := if isAnonymous then none else some uid
    file_path := attachmentPath c.id (toString now ++ "." ++ fileExt fb.name)
    file_name := fb.name
    mime_type := fb.mime
    file_size := fb.size
    created_at := now }

/-- The file-upload loop of `handleSubmit`: one storage upload plus one
`attachments` insert per file (uploads assumed to succeed; `Date.now()`
modelled as the single timestamp `now`). -/
def uploadAttachments (db : DB) (uid : Uuid) (c : Complaint) (isAnonymous : Bool)
    (files : List FileBlob) (now : Nat) : DB :=
  { db with attachments := db.attachments ++ files.map (mkAttachment uid c isAnonymous now) }

/-- `(storage.foldername(name))[1]` for keys of the shape produced by the
upload loop: the key text up to the first `/`. -/
def firstFolder (name : String) : String :=
  String.mk (name.data.takeWhile fun ch => !decide (ch = '/'))

/-- The owner clause of the storage SELECT policy:
`auth.uid()::text = (storage.foldername(name))[1]`. -/
def storageOwnerClause (uid : Uuid) (name : String) : Bool :=
  decide (uid = firstFolder name)

/-- Storage policy "Users can view attachments for their complaints" on
`storage.objects`. -/
def storageCanReadObject (db : DB) (uid : Uuid) (bucket : String) (name : String) : Bool :=
  decide (bucket = "complaint-attachments") &&
    (storageOwnerClause uid name || isManagerOrAdmin db uid)

/-- The mutating client operations of the application, for whole-system
invariants. -/
inductive ClientOp
  | submit (uid : Uuid) (f : ComplaintForm) (isAnonymous : Bool) (freshId : Uuid) (now : Nat)
  | setStatus (uid : Uuid) (complaintId : Uuid) (s : Status) (now : Nat)
  | doAssign (uid : Uuid) (complaintId : Uuid) (managerId : Option Uuid) (now : Nat)
  | post (uid : Uuid) (complaintId : Uuid) (body : String) (freshId : Uuid) (now : Nat)
  | upload (uid : Uuid) (c : Complaint) (isAnonymous : Bool) (files : List FileBlob) (now : Nat)

/-- State transition of one client operation. -/
def applyOp (db : DB) : ClientOp → DB
  | ClientOp.submit uid f a fid now =>
    match submitComplaint db uid f a fid now with
    | Except.ok p => p.1
    | Except.error _ => db
  | ClientOp.setStatus uid cid s now => (updateComplaintStatus db uid cid s now).db
  | ClientOp.doAssign uid cid mid now => (assignComplaint db uid cid mid now).db
  | ClientOp.post uid cid body fid now => (sendMessage db uid cid body fid now).getD db
  | ClientOp.upload uid c a files now => uploadAttachments db uid c a files now

/-! ### Concrete fixtures used by witnesses and counterexamples -/

def studentAsha : Profile :=
  { id := "s1", name := "Asha", role := Role.student, hub := some "Kochi Hub" }

def managerMeera : Profile :=
  { id := "m1", name := "Meera", role := Role.manager, hub := some "Kochi Hub" }

def demoForm : ComplaintForm :=
  { title := "Projector broken"
    description := "The projector in Lab 1 does not power on at all."
    category := "network"
    hub := "Kochi Hub"
    room := some "Lab 1"
    priority := "high" }

def demoDB : DB :=
  { profiles := [studentAsha, managerMeera]
    complaints := []
    messages := []
    attachments := [] }

/-- The row an anonymous submission of `demoForm` produces. -/
def cW : Complaint := mkComplaint "s1" demoForm true "c100" 3 Category.network Priority.high

/-- A non-anonymous complaint of student `s1`. -/
def cS1 : Complaint := mkComplaint "s1" demoForm false "c1" 1 Category.network Priority.high

/-- A non-anonymous complaint of another student `s2`. -/
def cS2 : Complaint := mkComplaint "s2" demoForm false "c2" 2 Category.other Priority.low

def listDB : DB :=
  { profiles := [studentAsha, managerMeera]
    complaints := [cS1, cS2]
    messages := []
    attachments := [] }

/-! ### Helper lemmas -/

/-- Inversion of a successful `submitComplaint`: the new state appends exactly
the built row, whose `user_id` is `none` exactly when the anonymous flag is
set. -/
lemma submitComplaint_ok {db : DB} {uid : Uuid} {f : ComplaintForm}
    {isAnonymous : Bool} {freshId : Uuid} {now : Nat} {db' : DB} {c : Complaint}
    (h : submitComplaint db uid f isAnonymous freshId now = Except.ok (db', c)) :
    db' = { db with complaints := db.complaints ++ [c] } ∧
      c.user_id = (if isAnonymous then none else some uid) := by
  unfold submitComplaint at h
  split at h
  · split at h
    · split at h
      · simp only [Except.ok.injEq, Prod.mk.injEq] at h
        obtain ⟨hdb, hc⟩ := h
        subst hc
        subst hdb
        exact ⟨rfl, rfl⟩
      · exact absurd h (by simp)
    · exact absurd h (by simp)
  · exact absurd h (by simp)

/-- A caller whose (unique) profile row has role `student` does not satisfy
the manager/admin clause. -/
lemma student_not_manager (db : DB) (uid : Uuid) (pr : Profile)
    (hmem : pr ∈ db.profiles) (hid : pr.id = uid) (hrole : pr.role = Role.student)
    (hnd : (db.profiles.map Profile.id).Nodup) :
    isManagerOrAdmin db uid = false := by
  rw [isManagerOrAdmin, List.any_eq_false]
  intro p hp
  simp only [Bool.and_eq_true, Bool.or_eq_true, decide_eq_true_eq, not_and, not_or]
  intro hpid
  have hpr : p = pr := List.inj_on_of_nodup_map hnd hp hmem (by rw [hpid, hid])
  subst hpr
  rw [hrole]
  exact ⟨fun h => Role.noConfusion h, fun h => Role.noConfusion h⟩

/-- When the caller fails the UPDATE policy, the whole statement is a silent
no-op: zero rows affected, state unchanged, no error. -/
lemma runComplaintUpdate_denied (db : DB) (uid : Uuid) (rowFilter : Complaint → Bool)
    (change : Complaint → Complaint) (now : Nat)
    (hmgr : isManagerOrAdmin db uid = false) :
    runComplaintUpdate db uid rowFilter change now = { db := db, rowsAffected := 0 } := by
  rw [runComplaintUpdate]
  simp [canUpdateComplaint, hmgr]

/-! ### C1 -/

/-- C1: every complaint created through the submission flow with the
anonymous flag set is stored with `user_id = none`, whatever authenticated
caller performed the creation. -/
theorem c1_anonymous_submit_stores_no_user (db : DB) (uid : Uuid)
    (f : ComplaintForm) (freshId : Uuid) (now : Nat) (db' : DB) (c : Complaint)
    (h : submitComplaint db uid f true freshId now = Except.ok (db', c)) :
    c.user_id = none ∧ db'.complaints = db.complaints ++ [c] := by
  obtain ⟨hdb, hcu⟩ := submitComplaint_ok h
  subst hdb
  exact ⟨by simpa using hcu, rfl⟩

/-- C1 witness: an anonymous submission of a concrete valid form by the
student `s1` succeeds and stores `user_id = none`. -/
theorem c1_anonymous_submit_stores_no_user_witness :
    cW.user_id = none ∧
      ({ demoDB with complaints := demoDB.complaints ++ [cW] } : DB).complaints
        = demoDB.complaints ++ [cW] :=
  c1_anonymous_submit_stores_no_user demoDB "s1" demoForm "c100" 3
    { demoDB with complaints := demoDB.complaints ++ [cW] } cW (by decide)

/-! ### C2 -/

/-- C2: listing complaints gives a student caller exactly the rows whose
`user_id` is the caller's id; a manager or admin caller gets every row; the
result is ordered newest-first by `created_at`. -/
theorem c2_list_for_caller (db : DB) (uid : Uuid) (pr : Profile)
    (hmem : pr ∈ db.profiles) (hid : pr.id = uid)
    (hnd : (db.profiles.map Profile.id).Nodup) :
    (pr.role = Role.student →
      (fetchComplaints db uid).Perm
        (db.complaints.filter fun c => decide (c.user_id = some uid))) ∧
    ((pr.role = Role.manager ∨ pr.role = Role.admin) →
      (fetchComplaints db uid).Perm db.complaints) ∧
    (fetchComplaints db uid).Sorted newerFirst := by
  refine ⟨?_, ?_, List.sorted_insertionSort newerFirst _⟩
  · intro hst
    have hmgr : isManagerOrAdmin db uid = false :=
      student_not_manager db uid pr hmem hid hst hnd
    have hf : db.complaints.filter (canSelectComplaint db uid)
        = db.complaints.filter fun c => decide (c.user_id = some uid) := by
      refine List.filter_congr ?_
      intro c _
      rw [canSelectComplaint, hmgr, Bool.or_false]
      cases hu : c.user_id with
      | none => simp [uidEq]
      | some v =>
        simp only [uidEq]
        exact decide_eq_decide.mpr
          ⟨fun h => by rw [h], fun h => (Option.some.inj h).symm⟩
    rw [fetchComplaints, hf]
    exact List.perm_insertionSort _ _
  · intro hm
    have hmgr : isManagerOrAdmin db uid = true := by
      rw [isManagerOrAdmin, List.any_eq_true]
      refine ⟨pr, hmem, ?_⟩
      rcases hm with hm | hm <;> simp [hid, hm]
    have hf : db.complaints.filter (canSelectComplaint db uid) = db.complaints := by
      refine List.filter_eq_self.mpr ?_
      intro c _
      rw [canSelectComplaint, hmgr, Bool.or_true]
    rw [fetchComplaints, hf]
    exact List.perm_insertionSort _ _

/-- C2 witness: on a concrete database with two students' complaints, the
student `s1` lists exactly their own complaint. -/
theorem c2_list_for_caller_witness :
    (fetchComplaints listDB "s1").Perm
      (listDB.complaints.filter fun c => decide (c.user_id = some "s1")) :=
  (c2_list_for_caller listDB "s1" studentAsha (by decide) (by decide) (by decide)).1
    (by decide)

/-! ### C3 -/

/-- C3 counterexample: on a concrete database whose only caller `s1` is a
student, `update_status` and `assign` do not fail with any error — each call
completes as a successful zero-row update (`rowsAffected = 0`, state
unchanged), so the denial is never reported as an error to the caller (the
client code then shows its success toast). -/
theorem c3_counterexample :
    updateComplaintStatus listDB "s1" "c1" Status.resolved 7
        = { db := listDB, rowsAffected := 0 } ∧
      assignComplaint listDB "s1" "c1" (some "m1") 7
        = { db := listDB, rowsAffected := 0 } := by
  decide

/-- C3 (amended): for every caller whose unique profile row has role
`student`, `update_status` and `assign` are silently denied: they match zero
rows under the UPDATE policy, every complaint row is left unchanged, and no
error is produced. -/
theorem c3_student_update_is_silent_noop (db : DB) (uid : Uuid) (pr : Profile)
    (hmem : pr ∈ db.profiles) (hid : pr.id = uid) (hrole : pr.role = Role.student)
    (hnd : (db.profiles.map Profile.id).Nodup)
    (cid : Uuid) (s : Status) (mid : Option Uuid) (now : Nat) :
    updateComplaintStatus db uid cid s now = { db := db, rowsAffected := 0 } ∧
      assignComplaint db uid cid mid now = { db := db, rowsAffected := 0 } := by
  have hmgr : isManagerOrAdmin db uid = false :=
    student_not_manager db uid pr hmem hid hrole hnd
  exact ⟨runComplaintUpdate_denied db uid _ _ now hmgr,
    runComplaintUpdate_denied db uid _ _ now hmgr⟩

/-- C3 witness: the amended statement evaluated on the concrete database. -/
theorem c3_student_update_is_silent_noop_witness :
    updateComplaintStatus listDB "s1" "c2" Status.closed 9
        = { db := listDB, rowsAffected := 0 } ∧
      assignComplaint listDB "s1" "c2" none 9
        = { db := listDB, rowsAffected := 0 } :=
  c3_student_update_is_silent_noop listDB "s1" studentAsha (by decide) (by decide)
    (by decide) (by decide) "c2" Status.closed none 9

/-! ### C4 -/

/-- C4: a student who submits a complaint anonymously can no longer read or
list it: the complaint-read predicate is false for them (the stored `user_id`
is NULL), while any caller satisfying the manager/admin clause can read it. -/
theorem c4_anonymous_complaint_hidden_from_submitter (db : DB) (uid : Uuid)
    (f : ComplaintForm) (freshId : Uuid) (now : Nat) (db' : DB) (c : Complaint)
    (h : submitComplaint db uid f true freshId now = Except.ok (db', c))
    (pr : Profile) (hmem : pr ∈ db.profiles) (hid : pr.id = uid)
    (hrole : pr.role = Role.student) (hnd : (db.profiles.map Profile.id).Nodup) :
    canSelectComplaint db' uid c = false ∧
      c ∉ fetchComplaints db' uid ∧
      ∀ v : Uuid, isManagerOrAdmin db' v = true → canSelectComplaint db' v c = true := by
  obtain ⟨hdb, hcu⟩ := submitComplaint_ok h
  subst hdb
  have hcu' : c.user_id = none := by simpa using hcu
  have hmgr : isManagerOrAdmin { db with complaints := db.complaints ++ [c] } uid = false :=
    student_not_manager _ uid pr hmem hid hrole hnd
  have hsel : canSelectComplaint { db with complaints := db.complaints ++ [c] } uid c = false := by
    rw [canSelectComplaint, hmgr, Bool.or_false, hcu']
    rfl
  refine ⟨hsel, ?_, ?_⟩
  · intro hmemF
    rw [fetchComplaints] at hmemF
    have h1 := (List.perm_insertionSort newerFirst _).mem_iff.mp hmemF
    have h2 := (List.mem_filter.mp h1).2
    rw [hsel] at h2
    exact Bool.noConfusion h2
  · intro v hv
    rw [canSelectComplaint, hv, Bool.or_true]

/-- The row produced by the anonymous submission used in witnesses. -/
def cAnon : Complaint := mkComplaint "s1" demoForm true "c3" 3 Category.network Priority.high

def dbAnon : DB := { listDB with complaints := listDB.complaints ++ [cAnon] }

/-- C4 witness: after `s1` submits anonymously on the concrete database, the
read predicate denies `s1` and the listing excludes the new row. -/
theorem c4_anonymous_complaint_hidden_from_submitter_witness :
    canSelectComplaint dbAnon "s1" cAnon = false ∧ cAnon ∉ fetchComplaints dbAnon "s1" :=
  ⟨(c4_anonymous_complaint_hidden_from_submitter listDB "s1" demoForm "c3" 3 dbAnon cAnon
      (by decide) studentAsha (by decide) (by decide) (by decide) (by decide)).1,
   (c4_anonymous_complaint_hidden_from_submitter listDB "s1" demoForm "c3" 3 dbAnon cAnon
      (by decide) studentAsha (by decide) (by decide) (by decide) (by decide)).2.1⟩

/-! ### C5 -/

/-- Inversion of a successful `sendMessage`. -/
lemma sendMessage_some {db : DB} {uid cid : Uuid} {body : String}
    {freshId : Uuid} {now : Nat} {db' : DB}
    (h : sendMessage db uid cid body freshId now = some db') :
    db' = dbAfterPost db uid cid body freshId now := by
  rw [sendMessage] at h
  split at h
  · exact absurd h (by simp)
  · split at h
    · exact (Option.some.inj h).symm
    · exact absurd h (by simp)

/-- C5: posting a whitespace-only body inserts nothing; a non-empty body is
persisted, and listing the thread returns all of the complaint's messages
(for a caller who can read the complaint) in chronological ascending order. -/
theorem c5_post_and_list_messages (db : DB) (uid : Uuid) (cid : Uuid)
    (body : String) (freshId : Uuid) (now : Nat)
    (hvis : canReadThread db uid cid = true) :
    (jsTrim body = "" → sendMessage db uid cid body freshId now = none) ∧
    (jsTrim body ≠ "" →
      sendMessage db uid cid body freshId now
          = some (dbAfterPost db uid cid body freshId now) ∧
        mkMessage uid cid body freshId now
            ∈ listMessages (dbAfterPost db uid cid body freshId now) uid cid ∧
        (listMessages (dbAfterPost db uid cid body freshId now) uid cid).Perm
          ((dbAfterPost db uid cid body freshId now).messages.filter
            fun m => decide (m.complaint_id = cid)) ∧
        (listMessages (dbAfterPost db uid cid body freshId now) uid cid).Sorted
          olderFirst) := by
  constructor
  · intro he
    rw [sendMessage, if_pos he]
  · intro hne
    have hsend : sendMessage db uid cid body freshId now
        = some (dbAfterPost db uid cid body freshId now) := by
      rw [sendMessage, if_neg hne]
      simp [canInsertMessage, mkMessage]
    have hpt : ∀ m ∈ (dbAfterPost db uid cid body freshId now).messages,
        (decide (m.complaint_id = cid)
            && canSelectMessage (dbAfterPost db uid cid body freshId now) uid m)
          = decide (m.complaint_id = cid) := by
      intro m _
      cases hd : decide (m.complaint_id = cid) with
      | false => rw [Bool.false_and]
      | true =>
        rw [Bool.true_and, canSelectMessage, of_decide_eq_true hd]
        exact hvis
    have hfil : (dbAfterPost db uid cid body freshId now).messages.filter
          (fun m => decide (m.complaint_id = cid)
            && canSelectMessage (dbAfterPost db uid cid body freshId now) uid m)
        = (dbAfterPost db uid cid body freshId now).messages.filter
          fun m => decide (m.complaint_id = cid) :=
      List.filter_congr hpt
    refine ⟨hsend, ?_, ?_, List.sorted_insertionSort olderFirst _⟩
    · rw [listMessages, hfil]
      refine ((List.perm_insertionSort olderFirst _).mem_iff).mpr ?_
      rw [List.mem_filter]
      exact ⟨List.mem_append_right _ (List.mem_singleton_self _), by simp [mkMessage]⟩
    · rw [listMessages, hfil]
      exact List.perm_insertionSort _ _

/-- C5 witness: on the concrete database, `s1` posts " Still broken " to
their complaint `c1`; the message is stored trimmed and appears in the
thread listing. -/
theorem c5_post_and_list_messages_witness :
    sendMessage listDB "s1" "c1" " Still broken " "m1" 5
        = some (dbAfterPost listDB "s1" "c1" " Still broken " "m1" 5) ∧
      mkMessage "s1" "c1" " Still broken " "m1" 5
        ∈ listMessages (dbAfterPost listDB "s1" "c1" " Still broken " "m1" 5) "s1" "c1" :=
  ⟨((c5_post_and_list_messages listDB "s1" "c1" " Still broken " "m1" 5
      (by decide)).2 (by decide)).1,
   ((c5_post_and_list_messages listDB "s1" "c1" " Still broken " "m1" 5
      (by decide)).2 (by decide)).2.1⟩

/-! ### C6 -/

/-- C6: the message table is append-only across every client operation: each
operation either leaves `messages` unchanged or appends exactly one row, so
an existing message row is never updated or deleted. -/
theorem c6_messages_append_only (db : DB) (op : ClientOp) :
    (applyOp db op).messages = db.messages ∨
      ∃ m, (applyOp db op).messages = db.messages ++ [m] := by
  cases op with
  | submit uid f a fid now =>
    rw [applyOp]
    rcases h : submitComplaint db uid f a fid now with e | p
    · exact Or.inl rfl
    · obtain ⟨db', c⟩ := p
      obtain ⟨hdb, -⟩ := submitComplaint_ok h
      rw [hdb]
      exact Or.inl rfl
  | setStatus uid cid s now => exact Or.inl rfl
  | doAssign uid cid mid now => exact Or.inl rfl
  | post uid cid body fid now =>
    rw [applyOp]
    rcases h : sendMessage db uid cid body fid now with _ | db'
    · exact Or.inl rfl
    · have hs := sendMessage_some h
      exact Or.inr ⟨mkMessage uid cid body fid now, by rw [hs]; rfl⟩
  | upload uid c a files now => exact Or.inl rfl

/-! ### C7 -/

/-- Trimming never lengthens a string. -/
lemma jsTrim_length_le (s : String) : (jsTrim s).length ≤ s.length := by
  show ((s.data.dropWhile jsWhitespace).reverse.dropWhile jsWhitespace).reverse.length
      ≤ s.data.length
  rw [List.length_reverse]
  refine le_trans (List.dropWhile_sublist _).length_le ?_
  rw [List.length_reverse]
  exact (List.dropWhile_sublist _).length_le

/-- A form whose submitted title has length 5 but trimmed length 4. -/
def shortPadForm : ComplaintForm :=
  { title := " aaaa"
    description := "aaaaaaaaaaaaaaaaaaaa"
    category := "network"
    hub := "Kochi Hub"
    room := some "Lab 1"
    priority := "high" }

/-- A title of submitted length 201 whose trimmed length is 200. -/
def longPadTitle : String := String.mk (List.replicate 200 'a' ++ [' '])

def longPadForm : ComplaintForm := { shortPadForm with title := longPadTitle }

set_option maxRecDepth 4000 in
/-- C7 counterexample: lengths are NOT measured on the submitted field
values.  A submitted title of length 5 (leading space) is rejected, and a
submitted title of length 201 (trailing space) is accepted, refuting
"accepts a title of length 5" and "rejects length 201" as stated. -/
theorem c7_counterexample :
    shortPadForm.title.length = 5 ∧ validateForm shortPadForm = false ∧
      longPadForm.title.length = 201 ∧ validateForm longPadForm = true := by
  decide

/-- C7 (amended): the length bounds are evaluated on the trimmed field
values: with the other fields valid, validation succeeds iff the trimmed
title length is in [5, 200] and the trimmed description length is in
[20, 2000].  In particular a submitted title of length at most 4 (or a
description of length at most 19) is always rejected, since trimming never
lengthens. -/
theorem c7_validation_bounds_on_trimmed (f : ComplaintForm)
    (hcat : (parseCategory f.category).isSome = true)
    (hpri : (parsePriority f.priority).isSome = true)
    (hhub : validHub f.hub = true) (hroom : validRoom f.room = true) :
    (validateForm f = true ↔
      (5 ≤ (jsTrim f.title).length ∧ (jsTrim f.title).length ≤ 200 ∧
        20 ≤ (jsTrim f.description).length ∧ (jsTrim f.description).length ≤ 2000)) ∧
    (f.title.length ≤ 4 → validateForm f = false) ∧
    (f.description.length ≤ 19 → validateForm f = false) := by
  have hiff : validateForm f = true ↔
      (5 ≤ (jsTrim f.title).length ∧ (jsTrim f.title).length ≤ 200 ∧
        20 ≤ (jsTrim f.description).length ∧ (jsTrim f.description).length ≤ 2000) := by
    rw [validateForm, validTitle, validDescription]
    simp only [hcat, hpri, hhub, hroom, Bool.and_true, Bool.and_eq_true,
      decide_eq_true_eq, and_assoc]
  refine ⟨hiff, ?_, ?_⟩
  · intro hle
    cases hv : validateForm f with
    | false => rfl
    | true =>
      obtain ⟨h5, -⟩ := hiff.mp hv
      have := jsTrim_length_le f.title
      omega
  · intro hle
    cases hv : validateForm f with
    | false => rfl
    | true =>
      obtain ⟨-, -, h20, -⟩ := hiff.mp hv
      have := jsTrim_length_le f.description
      omega

/-- C7 witness: the amended boundary statement evaluated on a concrete form. -/
theorem c7_validation_bounds_on_trimmed_witness :
    validateForm demoForm = true ↔
      (5 ≤ (jsTrim demoForm.title).length ∧ (jsTrim demoForm.title).length ≤ 200 ∧
        20 ≤ (jsTrim demoForm.description).length ∧
          (jsTrim demoForm.description).length ≤ 2000) :=
  (c7_validation_bounds_on_trimmed demoForm (by decide) (by decide) (by decide)
    (by decide)).1

/-! ### C8 -/

/-- C8: at the client boundary a file of exactly 10 MiB is kept and a file
one byte over is dropped; with 5 files already chosen a further file is
refused; the chosen list never exceeds 5 files. -/
theorem c8_attachment_client_boundary (prev : List FileBlob) (hlen : prev.length ≤ 5) :
    (∀ selected, (handleFileChange prev selected).length ≤ 5) ∧
    (∀ fb : FileBlob, fb.size = maxFileSize → prev.length < 5 →
      handleFileChange prev [fb] = prev ++ [fb]) ∧
    (∀ fb : FileBlob, fb.size = maxFileSize + 1 → handleFileChange prev [fb] = prev) ∧
    (prev.length = 5 → ∀ fb : FileBlob, handleFileChange prev [fb] = prev) := by
  refine ⟨?_, ?_, ?_, ?_⟩
  · intro selected
    rw [handleFileChange, List.length_take]
    exact min_le_left _ _
  · intro fb hsz hlt
    rw [handleFileChange]
    have hfil : [fb].filter (fun b => !decide (b.size > maxFileSize)) = [fb] := by
      simp [hsz]
    rw [hfil]
    refine List.take_of_length_le ?_
    simp only [List.length_append, List.length_singleton]
    omega
  · intro fb hsz
    rw [handleFileChange]
    have hfil : [fb].filter (fun b => !decide (b.size > maxFileSize)) = [] := by
      simp [hsz]
    rw [hfil, List.append_nil]
    exact List.take_of_length_le hlen
  · intro h5 fb
    rw [handleFileChange, List.take_append_of_le_length (by rw [h5])]
    rw [← h5]
    exact List.take_length _

def fb1 : FileBlob := { name := "leak.png", mime := "image/png", size := 100 }

def fiveFiles : List FileBlob := [fb1, fb1, fb1, fb1, fb1]

def boundaryFile : FileBlob :=
  { name := "scan.pdf", mime := "application/pdf", size := maxFileSize }

/-- C8 witness: a 6th file is refused at a full selection, and a file of
exactly 10 MiB is accepted when there is room. -/
theorem c8_attachment_client_boundary_witness :
    handleFileChange fiveFiles [boundaryFile] = fiveFiles ∧
      handleFileChange [fb1] [boundaryFile] = [fb1] ++ [boundaryFile] :=
  ⟨(c8_attachment_client_boundary fiveFiles (by decide)).2.2.2 (by decide) boundaryFile,
   (c8_attachment_client_boundary [fb1] (by decide)).2.1 boundaryFile (by decide)
     (by decide)⟩

/-! ### C9 -/

/-- `takeWhile` of a list that satisfies the predicate, then a stopper,
returns exactly the satisfying part. -/
lemma takeWhile_eq_of_stop {p : Char → Bool} :
    ∀ (l₁ : List Char) (a : Char) (l₂ : List Char),
      (∀ x ∈ l₁, p x = true) → p a = false →
      (l₁ ++ a :: l₂).takeWhile p = l₁
  | [], a, l₂, _, ha => by simp [List.takeWhile_cons, ha]
  | x :: l₁, a, l₂, h, ha => by
    have hx : p x = true := h x (List.mem_cons_self x l₁)
    rw [List.cons_append, List.takeWhile_cons, if_pos hx,
      takeWhile_eq_of_stop l₁ a l₂ (fun y hy => h y (List.mem_cons_of_mem x hy)) ha]

lemma data_append (s t : String) : (s ++ t).data = s.data ++ t.data := by
  cases s
  cases t
  rfl

/-- The first path folder of a key built by the upload loop is the complaint
id (UUIDs contain no slash). -/
lemma firstFolder_attachmentPath (cid : Uuid) (stamp : String)
    (hslash : ∀ ch ∈ cid.data, ch ≠ '/') :
    firstFolder (attachmentPath cid stamp) = cid := by
  rw [firstFolder, attachmentPath]
  have hd : (cid ++ "/" ++ stamp).data = cid.data ++ '/' :: stamp.data := by
    rw [data_append, data_append, List.append_assoc]
    rfl
  rw [hd, takeWhile_eq_of_stop cid.data '/' stamp.data ?h1 ?h2]
  case h1 =>
    intro x hx
    show (!decide (x = '/')) = true
    rw [decide_eq_false (hslash x hx)]
    rfl
  case h2 =>
    show (!decide ('/' = '/')) = false
    decide

/-- C9: every attachment key written by the upload flow has the complaint id
as its first path folder, so the owner clause of the storage read policy
(`auth.uid()::text` equals that folder) is false for every caller whose id
differs from the complaint id — including the uploader — and blob read
access reduces to the manager/admin clause. -/
theorem c9_attachment_keys_scoped_by_complaint (db : DB)
    (uploaderUid callerUid : Uuid) (c : Complaint) (isAnonymous : Bool)
    (files : List FileBlob) (now : Nat)
    (hslash : ∀ ch ∈ c.id.data, ch ≠ '/') (hne : callerUid ≠ c.id) :
    (uploadAttachments db uploaderUid c isAnonymous files now).attachments
        = db.attachments ++ files.map (mkAttachment uploaderUid c isAnonymous now) ∧
      ∀ fb ∈ files,
        firstFolder (mkAttachment uploaderUid c isAnonymous now fb).file_path = c.id ∧
          storageOwnerClause callerUid
              (mkAttachment uploaderUid c isAnonymous now fb).file_path = false ∧
          storageCanReadObject db callerUid "complaint-attachments"
              (mkAttachment uploaderUid c isAnonymous now fb).file_path
            = isManagerOrAdmin db callerUid := by
  refine ⟨rfl, ?_⟩
  intro fb _
  have hff : firstFolder (mkAttachment uploaderUid c isAnonymous now fb).file_path = c.id :=
    firstFolder_attachmentPath c.id (toString now ++ "." ++ fileExt fb.name) hslash
  have hown : storageOwnerClause callerUid
      (mkAttachment uploaderUid c isAnonymous now fb).file_path = false := by
    rw [storageOwnerClause, hff]
    exact decide_eq_false hne
  refine ⟨hff, hown, ?_⟩
  rw [storageCanReadObject, hown, Bool.false_or]
  rw [show decide (("complaint-attachments" : String) = "complaint-attachments") = true
    by decide]
  rw [Bool.true_and]

/-- C9 witness: for the concrete complaint `c1` and the student uploader
`s1`, the key's first folder is the complaint id and the owner clause denies
`s1`. -/
theorem c9_attachment_keys_scoped_by_complaint_witness :
    firstFolder (mkAttachment "s1" cS1 false 9 fb1).file_path = cS1.id ∧
      storageOwnerClause "s1" (mkAttachment "s1" cS1 false 9 fb1).file_path = false :=
  ⟨((c9_attachment_keys_scoped_by_complaint demoDB "s1" "s1" cS1 false [fb1] 9
      (by decide) (by decide)).2 fb1 (by decide)).1,
   ((c9_attachment_keys_scoped_by_complaint demoDB "s1" "s1" cS1 false [fb1] 9
      (by decide) (by decide)).2 fb1 (by decide)).2.1⟩

/-! ### C10 -/

/-- C10: every message inserted through the complaint-detail view records the
authenticated caller's id as `sender_id` (never NULL) — the insert does not
depend on the owning complaint, so this also holds when that complaint is
anonymous — and the messages INSERT policy accepts the row. -/
theorem c10_message_sender_is_caller (db : DB) (uid cid : Uuid) (body : String)
    (freshId : Uuid) (now : Nat) (db' : DB)
    (h : sendMessage db uid cid body freshId now = some db') :
    db'.messages = db.messages ++ [mkMessage uid cid body freshId now] ∧
      (mkMessage uid cid body freshId now).sender_id = some uid ∧
      canInsertMessage uid (mkMessage uid cid body freshId now) = true := by
  have hs := sendMessage_some h
  subst hs
  refine ⟨rfl, rfl, ?_⟩
  simp [canInsertMessage, mkMessage]

/-- C10 witness: a follow-up message posted by `s1` on their own anonymous
complaint `c3` still records `sender_id = some "s1"`. -/
theorem c10_message_sender_is_caller_witness :
    (dbAfterPost dbAnon "s1" "c3" "It is still not fixed" "m2" 6).messages
        = dbAnon.messages ++ [mkMessage "s1" "c3" "It is still not fixed" "m2" 6] ∧
      (mkMessage "s1" "c3" "It is still not fixed" "m2" 6).sender_id = some "s1" :=
  ⟨(c10_message_sender_is_caller dbAnon "s1" "c3" "It is still not fixed" "m2" 6
      (dbAfterPost dbAnon "s1" "c3" "It is still not fixed" "m2" 6) (by decide)).1,
   (c10_message_sender_is_caller dbAnon "s1" "c3" "It is still not fixed" "m2" 6
      (dbAfterPost dbAnon "s1" "c3" "It is still not fixed" "m2" 6) (by decide)).2.1⟩

end Connect
